import Mathlib

/-!
Verification of the text de-identification core of the MediLocal backend
(`app/services/anonymization_service.py` and `app/utils/gdpr_compliance.py`).

Texts are modelled as lists of Unicode codepoints (`List Nat`).  The regular
expressions of the pattern catalog use only a small fragment of Python's `re`
syntax: character classes, bounded and unbounded greedy repetition of a
character class, alternation, optional groups, literal strings and the
zero-width word-boundary assertion.  That fragment is embedded below as the
inductive type `Regex` together with a backtracking matcher `run` that follows
CPython's `sre` semantics for these constructs: alternatives are tried left to
right, repetition is greedy (longest option first), and the overall match at a
position is the first success in backtracking order.  `re.IGNORECASE` is
compiled into the character classes themselves, mirroring `sre`'s strategy of
lowercasing both the class and the input character (`foldLower`).

The scanning functions `finditerImpl` / `findallImpl` model `re.finditer` /
`re.findall` (all patterns are group-free, so `findall` returns whole
matches): scan positions left to right, emit the first match found, continue
after its end (the catalog's patterns never match the empty string, so the
zero-width-advance branch is unreachable for them).

The anonymization and validation routines themselves are embedded
parametrically over an abstract `Engine` (any function from pattern and text
to a match list), so that the structural claims hold for every engine and the
concrete claims instantiate the engine with `finditerImpl`.
-/

namespace MediLocal

/-- A text is a list of Unicode codepoints. -/
abbrev Text := List Nat

/-- Codepoints of a string literal, for readable concrete inputs. -/
def strT (s : String) : Text := s.data.map Char.toNat

/-- Python `\w` (Unicode word character), restricted to the codepoints that
occur in this development: ASCII letters, digits, underscore and the German
letters Ä Ö Ü ä ö ü ß. -/
def isWordChar (c : Nat) : Bool :=
  (65 ≤ c && c ≤ 90) || (97 ≤ c && c ≤ 122) || (48 ≤ c && c ≤ 57) || c == 95 ||
  c == 196 || c == 214 || c == 220 || c == 228 || c == 246 || c == 252 || c == 223

/-- Python `\s`, restricted to the whitespace codepoints relevant here. -/
def isSpace (c : Nat) : Bool :=
  c == 32 || c == 9 || c == 10 || c == 13 || c == 12 || c == 11 || c == 133 || c == 160

/-- One-character lowercasing, as used by `sre` to implement `re.IGNORECASE`
(restricted to the codepoint universe of this development). -/
def foldLower (c : Nat) : Nat :=
  if 65 ≤ c && c ≤ 90 then c + 32
  else if c == 196 || c == 214 || c == 220 then c + 32
  else c

/-- `[A-ZÄÖÜ]` under `re.IGNORECASE`. -/
def upperDE (c : Nat) : Bool :=
  let m := foldLower c
  (97 ≤ m && m ≤ 122) || m == 228 || m == 246 || m == 252

/-- `[a-zäöüß]` under `re.IGNORECASE`. -/
def lowerDE (c : Nat) : Bool :=
  let m := foldLower c
  (97 ≤ m && m ≤ 122) || m == 228 || m == 246 || m == 252 || m == 223

/-- `[a-zäöüß\s]` under `re.IGNORECASE`. -/
def lowerDEsp (c : Nat) : Bool := lowerDE c || isSpace c

/-- `\d`. -/
def isDigit (c : Nat) : Bool := 48 ≤ c && c ≤ 57

/-- `[A-Z]` under `re.IGNORECASE` (all ASCII letters). -/
def asciiAlpha (c : Nat) : Bool :=
  let m := foldLower c
  97 ≤ m && m ≤ 122

/-- `[A-Za-z0-9._%+-]` (the email local part; `re.IGNORECASE` is a no-op). -/
def emailLocalChar (c : Nat) : Bool :=
  asciiAlpha c || isDigit c || c == 46 || c == 95 || c == 37 || c == 43 || c == 45

/-- `[A-Za-z0-9.-]` (the email domain part). -/
def emailDomainChar (c : Nat) : Bool :=
  asciiAlpha c || isDigit c || c == 46 || c == 45

/-- `[A-Z|a-z]`: ASCII letters and, literally, the pipe character. -/
def alphaPipe (c : Nat) : Bool := asciiAlpha c || c == 124

/-- `[\s\-]`. -/
def spaceDash (c : Nat) : Bool := isSpace c || c == 45

/-- The regex fragment used by the pattern catalog.  `starCls` is greedy
`X*` for a character class `X`; `wordB` is the zero-width `\b`. -/
inductive Regex where
  | eps : Regex
  | cls (p : Nat → Bool) : Regex
  | starCls (p : Nat → Bool) : Regex
  | seq (a b : Regex) : Regex
  | alt (a b : Regex) : Regex
  | wordB : Regex

/-- `\b` holds between `prev` and the head of `s` iff exactly one side is a
word character (a missing side counts as non-word). -/
def isBoundary (prev : Option Nat) (s : Text) : Bool :=
  (match prev with | none => false | some c => isWordChar c) !=
  (match s with | [] => false | c :: _ => isWordChar c)

/-- All ways for greedy `X*` to consume a prefix of the input, longest first.
Each result is the last consumed character (for later `\b` tests) and the
remaining suffix. -/
def runStarCls (p : Nat → Bool) : Option Nat → Text → List (Option Nat × Text)
  | prev, [] => [(prev, [])]
  | prev, c :: rest =>
    if p c then runStarCls p (some c) rest ++ [(prev, c :: rest)]
    else [(prev, c :: rest)]

/-- Backtracking matcher: all ways a regex can consume a prefix of `s`, in
`sre` backtracking priority order (first element = what Python commits to). -/
def run : Regex → Option Nat → Text → List (Option Nat × Text)
  | .eps, prev, s => [(prev, s)]
  | .cls _, _, [] => []
  | .cls p, _, c :: rest => if p c then [(some c, rest)] else []
  | .starCls p, prev, s => runStarCls p prev s
  | .seq a b, prev, s => (run a prev s).flatMap fun pr => run b pr.1 pr.2
  | .alt a b, prev, s => run a prev s ++ run b prev s
  | .wordB, prev, s => if isBoundary prev s then [(prev, s)] else []

/-- One match as reported by `re.finditer`: the matched substring
(`match.group()`) and its span in the scanned string (`match.span()`). -/
structure RMatch where
  group : Text
  span : Nat × Nat
deriving Repr, DecidableEq

/-- Scanner for `re.finditer`: at each position try the regex; on success
record the match and resume after it, otherwise advance one character.
`fuel` bounds the number of scan steps (each step consumes at least one
character, so `length + 1` suffices). -/
def finditerAux (r : Regex) : Nat → Option Nat → Nat → Text → List RMatch
  | 0, _, _, _ => []
  | fuel + 1, prev, pos, s =>
    match (run r prev s).head? with
    | some pr =>
      let len := s.length - pr.2.length
      if len == 0 then
        match s with
        | [] => []
        | c :: rest => finditerAux r fuel (some c) (pos + 1) rest
      else
        ⟨s.take len, (pos, pos + len)⟩ :: finditerAux r fuel pr.1 (pos + len) pr.2
    | none =>
      match s with
      | [] => []
      | c :: rest => finditerAux r fuel (some c) (pos + 1) rest

/-- `re.finditer(pattern, s, re.IGNORECASE)` (case folding is baked into the
pattern's classes). -/
def finditerImpl (r : Regex) (s : Text) : List RMatch :=
  finditerAux r (s.length + 1) none 0 s

/-- An abstract regex engine: anything that, given a pattern and a text,
produces the list of matches.  The structural theorems below hold for every
engine; concrete evaluations use `finditerImpl`. -/
abbrev Engine := Regex → Text → List RMatch

/-- `re.findall` for group-free patterns: the matched substrings. -/
def findall (engine : Engine) (r : Regex) (t : Text) : List Text :=
  (engine r t).map (·.group)

/-- Greedy `X?`: try the body first, then the empty alternative. -/
def rOpt (r : Regex) : Regex := .alt r .eps

/-- Greedy `X+` for a character class. -/
def rPlus (p : Nat → Bool) : Regex := .seq (.cls p) (.starCls p)

/-- Greedy `X{0,n}` for a character class: prefer consuming another
character, up to `n` of them. -/
def rRepUpTo (p : Nat → Bool) : Nat → Regex
  | 0 => .eps
  | n + 1 => .alt (.seq (.cls p) (rRepUpTo p n)) .eps

/-- `X{n}` for a character class. -/
def rRepExact (p : Nat → Bool) : Nat → Regex
  | 0 => .eps
  | n + 1 => .seq (.cls p) (rRepExact p n)

/-- Greedy `X{lo,hi}` for a character class. -/
def rRep (p : Nat → Bool) (lo hi : Nat) : Regex :=
  .seq (rRepExact p lo) (rRepUpTo p (hi - lo))

/-- Greedy `X{lo,}` for a character class. -/
def rAtLeast (p : Nat → Bool) (lo : Nat) : Regex :=
  .seq (rRepExact p lo) (.starCls p)

/-- Sequence of a list of regexes. -/
def rSeqs : List Regex → Regex
  | [] => .eps
  | [r] => r
  | r :: rs => .seq r (rSeqs rs)

/-- Case-insensitive literal, one class per character (`sre` lowercases both
the pattern character and the input character under `re.IGNORECASE`). -/
def rLitIC (s : String) : Regex :=
  rSeqs (s.data.map fun c => .cls fun n => foldLower n == foldLower c.toNat)

/-- Alternation over a non-empty list, left to right. -/
def rAlts : List Regex → Regex
  | [] => .eps
  | [r] => r
  | r :: rs => .alt r (rAlts rs)

/-! ### The pattern catalog of `AnonymizationService.__init__`
Each definition is the direct translation of one regex literal of
`self.patterns`; all of them are compiled under `re.IGNORECASE` (the flag the
service passes at every call site), which is baked into the classes. -/

/-- `\b[A-ZÄÖÜ][a-zäöüß]+\s+[A-ZÄÖÜ][a-zäöüß]+\b` (names rule 1:
"First Last"). -/
def names_1 : Regex :=
  rSeqs [.wordB, .cls upperDE, rPlus lowerDE, rPlus isSpace,
         .cls upperDE, rPlus lowerDE, .wordB]

/-- `\b(?:Herr|Frau|Dr\.|Prof\.)\s+[A-ZÄÖÜ][a-zäöüß]+` (names rule 2:
titles with names). -/
def names_2 : Regex :=
  rSeqs [.wordB, rAlts [rLitIC "Herr", rLitIC "Frau", rLitIC "Dr.", rLitIC "Prof."],
         rPlus isSpace, .cls upperDE, rPlus lowerDE]

/-- `\b[A-ZÄÖÜ][a-zäöüß]+(?:-[A-ZÄÖÜ][a-zäöüß]+)?\b` (names rule 3:
hyphenated names). -/
def names_3 : Regex :=
  rSeqs [.wordB, .cls upperDE, rPlus lowerDE,
         rOpt (rSeqs [.cls (fun c => c == 45), .cls upperDE, rPlus lowerDE]), .wordB]

/-- `\b\d{1,5}\s+[A-ZÄÖÜ][a-zäöüß\s]+(?:straße|str\.|platz|weg|allee|gasse)\b`
(addresses rule 1: street with number). -/
def addresses_1 : Regex :=
  rSeqs [.wordB, rRep isDigit 1 5, rPlus isSpace, .cls upperDE, rPlus lowerDEsp,
         rAlts [rLitIC "straße", rLitIC "str.", rLitIC "platz", rLitIC "weg",
                rLitIC "allee", rLitIC "gasse"], .wordB]

/-- `\b\d{5}\s+[A-ZÄÖÜ][a-zäöüß\s]+\b` (addresses rule 2: postal code with
city). -/
def addresses_2 : Regex :=
  rSeqs [.wordB, rRepExact isDigit 5, rPlus isSpace, .cls upperDE,
         rPlus lowerDEsp, .wordB]

/-- `\b(?:\+49|0)\s?\d{2,5}[\s\-]?\d{3,8}\b` (phones rule 1). -/
def phones_1 : Regex :=
  rSeqs [.wordB, .alt (rLitIC "+49") (rLitIC "0"), rOpt (.cls isSpace),
         rRep isDigit 2 5, rOpt (.cls spaceDash), rRep isDigit 3 8, .wordB]

/-- `\b\d{3,5}[\s\-]\d{6,8}\b` (phones rule 2). -/
def phones_2 : Regex :=
  rSeqs [.wordB, rRep isDigit 3 5, .cls spaceDash, rRep isDigit 6 8, .wordB]

/-- `\b[A-Za-z0-9._%+-]+@[A-Za-z0-9.-]+\.[A-Z|a-z]{2,}\b` (emails rule 1). -/
def emails_1 : Regex :=
  rSeqs [.wordB, rPlus emailLocalChar, .cls (fun c => c == 64),
         rPlus emailDomainChar, .cls (fun c => c == 46), rAtLeast alphaPipe 2,
         .wordB]

/-- `\b\d{2}\s?\d{2}\s?\d{2}\s?\d{2}\s?[A-Z]\s?\d{3}\b` (ids rule 1:
Personalausweis). -/
def ids_1 : Regex :=
  rSeqs [.wordB, rRepExact isDigit 2, rOpt (.cls isSpace), rRepExact isDigit 2,
         rOpt (.cls isSpace), rRepExact isDigit 2, rOpt (.cls isSpace),
         rRepExact isDigit 2, rOpt (.cls isSpace), .cls asciiAlpha,
         rOpt (.cls isSpace), rRepExact isDigit 3, .wordB]

/-- `\b[A-Z]\d{8}\b` (ids rule 2: Reisepass). -/
def ids_2 : Regex :=
  rSeqs [.wordB, .cls asciiAlpha, rRepExact isDigit 8, .wordB]

/-- `\b\d{1,2}\.\d{1,2}\.\d{4}\b` (dates rule 1: numeric D.M.YYYY). -/
def dates_1 : Regex :=
  rSeqs [.wordB, rRep isDigit 1 2, .cls (fun c => c == 46), rRep isDigit 1 2,
         .cls (fun c => c == 46), rRepExact isDigit 4, .wordB]

/-- `\b\d{1,2}\s(?:Januar|Februar|März|April|Mai|Juni|Juli|August|September|Oktober|November|Dezember)\s\d{4}\b`
(dates rule 2: textual German month). -/
def dates_2 : Regex :=
  rSeqs [.wordB, rRep isDigit 1 2, .cls isSpace,
         rAlts [rLitIC "Januar", rLitIC "Februar", rLitIC "März", rLitIC "April",
                rLitIC "Mai", rLitIC "Juni", rLitIC "Juli", rLitIC "August",
                rLitIC "September", rLitIC "Oktober", rLitIC "November",
                rLitIC "Dezember"],
         .cls isSpace, rRepExact isDigit 4, .wordB]

/-- `\b[A-Z]\d{9}\b` (insurance rule 1: Krankenversicherungsnummer). -/
def insurance_1 : Regex :=
  rSeqs [.wordB, .cls asciiAlpha, rRepExact isDigit 9, .wordB]

/-- `\b\d{2}\s?\d{6}\s?[A-Z]\s?\d{3}\b` (insurance rule 2). -/
def insurance_2 : Regex :=
  rSeqs [.wordB, rRepExact isDigit 2, rOpt (.cls isSpace), rRepExact isDigit 6,
         rOpt (.cls isSpace), .cls asciiAlpha, rOpt (.cls isSpace),
         rRepExact isDigit 3, .wordB]

/-- `self.patterns`: the ordered category catalog of the service (Python dicts
iterate in insertion order). -/
def patterns : List (String × List Regex) :=
  [("names", [names_1, names_2, names_3]),
   ("addresses", [addresses_1, addresses_2]),
   ("phones", [phones_1, phones_2]),
   ("emails", [emails_1]),
   ("ids", [ids_1, ids_2]),
   ("dates", [dates_1, dates_2]),
   ("insurance", [insurance_1, insurance_2])]

/-! ### The redactor (`AnonymizationService._anonymize_locally`) -/

/-- Decimal digits of a natural number as codepoints (`f"{index}"`). -/
def natTextAux : Nat → Nat → Text → Text
  | 0, _, acc => acc
  | fuel + 1, n, acc =>
    if n < 10 then (48 + n) :: acc
    else natTextAux fuel (n / 10) ((48 + n % 10) :: acc)

/-- Decimal rendering of a natural number. -/
def natText (n : Nat) : Text := natTextAux (n + 1) n []

/-- `AnonymizationService._generate_replacement`: the placeholder template for
a pattern type at a given index, with `[ANONYMIZED_<i>]` as the dictionary's
`.get` default. -/
def generate_replacement (pattern_type : String) (index : Nat) : Text :=
  let table : List (String × Text) :=
    [("names", strT "[NAME_" ++ natText index ++ strT "]"),
     ("addresses", strT "[ADRESSE_" ++ natText index ++ strT "]"),
     ("phones", strT "[TELEFON_" ++ natText index ++ strT "]"),
     ("emails", strT "[EMAIL_" ++ natText index ++ strT "]"),
     ("ids", strT "[ID_" ++ natText index ++ strT "]"),
     ("dates", strT "[DATUM_" ++ natText index ++ strT "]"),
     ("insurance", strT "[VERSICHERUNG_" ++ natText index ++ strT "]")]
  (table.lookup pattern_type).getD (strT "[ANONYMIZED_" ++ natText index ++ strT "]")

/-- Python `s.replace(old, new, 1)`: substitute the first occurrence of `old`
in `s` (an empty `old` matches at position 0). -/
def replaceFirst (old new : Text) : Text → Text
  | [] => if old.isPrefixOf ([] : Text) then new else []
  | c :: rest =>
    if old.isPrefixOf (c :: rest) then new ++ (c :: rest).drop old.length
    else c :: replaceFirst old new rest

/-- One ledger entry: the dict appended to `replacements` per match. -/
structure ReplacementRecord where
  original : Text
  replacement : Text
  type : String
  position : Nat × Nat
deriving Repr, DecidableEq

/-- The dict returned by `_anonymize_locally`. -/
structure AnonymizationResult where
  original_text : Text
  anonymized_text : Text
  replacements : List ReplacementRecord
  replacement_count : Nat
  gdpr_compliant : Bool
  anonymization_method : String
deriving Repr, DecidableEq

/-- Redactor state: the working text and the ledger so far. -/
abbrev RState := Text × List ReplacementRecord

/-- Body of the innermost loop of `_anonymize_locally`: record one match
(placeholder index is `len(replacements) + 1`, the global ledger length) and
substitute the first occurrence of the matched substring in the working
text. -/
def processMatch (pattern_type : String) (st : RState) (m : RMatch) : RState :=
  let replacement := generate_replacement pattern_type (st.2.length + 1)
  (replaceFirst m.group replacement st.1,
   st.2 ++ [⟨m.group, replacement, pattern_type, m.span⟩])

/-- Middle loop: run one rule over the current working text (`re.finditer` is
called once, on the text as it is at that moment) and process its matches in
order. -/
def processRule (engine : Engine) (pattern_type : String) (st : RState)
    (p : Regex) : RState :=
  (engine p st.1).foldl (processMatch pattern_type) st

/-- Outer loop body: all rules of one category, in order. -/
def processCategory (engine : Engine) (st : RState)
    (cat : String × List Regex) : RState :=
  cat.2.foldl (processRule engine cat.1) st

/-- `AnonymizationService._anonymize_locally`, parametric in the regex
engine. -/
def anonymize_locally (engine : Engine) (text : Text) : AnonymizationResult :=
  let st := patterns.foldl (processCategory engine) (text, [])
  { original_text := text,
    anonymized_text := st.1,
    replacements := st.2,
    replacement_count := st.2.length,
    gdpr_compliant := true,
    anonymization_method := "local_regex_processing" }

/-! ### The reduced validator (`AnonymizationService.validate_anonymization`) -/

/-- The dict returned by `validate_anonymization`. -/
structure ValidationResult where
  is_valid : Bool
  potential_issues : List Text
  anonymization_score : Int
deriving Repr, DecidableEq

/-- `suspicious_patterns`: the three high-precision rules re-listed inside
`validate_anonymization`; their regex literals are character-for-character
identical to `names_1`, `addresses_2` and `emails_1` of the catalog. -/
def suspicious_patterns : List Regex := [names_1, addresses_2, emails_1]

/-- Loop body of `validate_anonymization`: `matches = re.findall(...)`,
`if matches: issues.extend(matches)`. -/
def issuesStep (engine : Engine) (t : Text) (issues : List Text) (p : Regex) :
    List Text :=
  let ms := findall engine p t
  if ms.isEmpty then issues else issues ++ ms

/-- `AnonymizationService.validate_anonymization(original, anonymized)`: only
the `anonymized` argument is inspected. -/
def validate_anonymization (engine : Engine) (_original anonymized : Text) :
    ValidationResult :=
  let issues := suspicious_patterns.foldl (issuesStep engine anonymized) []
  { is_valid := issues.length == 0,
    potential_issues := issues,
    anonymization_score := max 0 (100 - (issues.length : Int) * 10) }

/-! ### The full validator (`GDPRCompliance`) -/

/-- One element of the `issues` list of `GDPRCompliance.validate_anonymization`.
The field `found` models the dict key "matches" (a reserved word in Lean). -/
structure GdprIssue where
  type : String
  found : List Text
  severity : String
deriving Repr, DecidableEq

/-- The dict returned by `GDPRCompliance.validate_anonymization` (the
`validation_timestamp` wall-clock field is outside the model). -/
structure GdprValidationResult where
  is_anonymized : Bool
  confidence_score : Int
  issues : List GdprIssue
deriving Repr, DecidableEq

/-- `GDPRCompliance.SENSITIVE_PATTERNS`: its seven regex literals are
character-for-character identical to the corresponding rules of the service
catalog, so those `Regex` values are reused. -/
def SENSITIVE_PATTERNS : List (String × Regex) :=
  [("german_names", names_1),
   ("addresses", addresses_1),
   ("phone_numbers", phones_1),
   ("email_addresses", emails_1),
   ("german_ids", ids_1),
   ("insurance_numbers", insurance_1),
   ("dates", dates_1)]

/-- Severity assigned per finding by `GDPRCompliance.validate_anonymization`. -/
def severity_for (pattern_name : String) : String :=
  if ["german_names", "addresses", "phone_numbers"].contains pattern_name
  then "high" else "medium"

/-- Loop body of `GDPRCompliance.validate_anonymization`: on a non-empty
match list, append one finding and subtract 15 per match from the running
confidence score. -/
def gdprStep (engine : Engine) (t : Text) (st : List GdprIssue × Int)
    (np : String × Regex) : List GdprIssue × Int :=
  let ms := findall engine np.2 t
  if ms.isEmpty then st
  else (st.1 ++ [⟨np.1, ms, severity_for np.1⟩],
        st.2 - (ms.length : Int) * 15)

/-- `GDPRCompliance.validate_anonymization(text)`: all seven categories, one
finding per category with matches, penalty 15 per match, floor at 0. -/
def gdpr_validate_anonymization (engine : Engine) (text : Text) :
    GdprValidationResult :=
  let st := SENSITIVE_PATTERNS.foldl (gdprStep engine text) ([], 100)
  { is_anonymized := st.1.length == 0,
    confidence_score := max 0 st.2,
    issues := st.1 }

/-! ### Retention and data-subject-rights helpers (`GDPRCompliance`) -/

/-- `GDPRCompliance.RETENTION_PERIODS` (days). -/
def RETENTION_PERIODS : List (String × Nat) :=
  [("medical_records", 2555),
   ("audit_logs", 2190),
   ("ai_interactions", 1095),
   ("consent_records", 2555),
   ("anonymized_data", 3650)]

/-- `GDPRCompliance.calculate_retention_date`: datetimes are modelled as
integer day counts, so `created + timedelta(days=n)` is `created + n`.  The
lookup falls back to 2555 days for unknown data types. -/
def calculate_retention_date (data_type : String) (created_date : Int) : Int :=
  let retention_days : Nat := (RETENTION_PERIODS.lookup data_type).getD 2555
  created_date + (retention_days : Int)

/-- `valid_requests` of `GDPRCompliance.validate_data_subject_rights`. -/
def valid_requests : List (String × String) :=
  [("access", "Article 15 - Right of access"),
   ("rectification", "Article 16 - Right to rectification"),
   ("erasure", "Article 17 - Right to erasure"),
   ("restrict_processing", "Article 18 - Right to restriction of processing"),
   ("data_portability", "Article 20 - Right to data portability"),
   ("object", "Article 21 - Right to object"),
   ("withdraw_consent", "Article 7(3) - Right to withdraw consent")]

/-- The dict returned by `validate_data_subject_rights`; the two branches
return different key sets, modelled with `Option` fields (`none` = key
absent).  The wall-clock fields `request_id`, `response_deadline` and
`timestamp` are outside the model. -/
structure RightsRequestResult where
  valid : Bool
  error : Option String
  valid_types : Option (List String)
  request_type : Option String
  legal_basis : Option String
  patient_id : Option String
deriving Repr, DecidableEq

/-- `GDPRCompliance.validate_data_subject_rights(request_type, patient_id)`. -/
def validate_data_subject_rights (request_type patient_id : String) :
    RightsRequestResult :=
  match valid_requests.lookup request_type with
  | none =>
    { valid := false,
      error := some ("Invalid request type: " ++ request_type),
      valid_types := some (valid_requests.map (·.1)),
      request_type := none, legal_basis := none, patient_id := none }
  | some basis =>
    { valid := true,
      error := none, valid_types := none,
      request_type := some request_type,
      legal_basis := some basis,
      patient_id := some patient_id }

/-! ### Checkers and auxiliary notions used by the claims -/

/-- Rewrite a ledger so that the entry at (0-based) position `k - start` gets
placeholder number `k + 1`: the normal form of global, per-run numbering. -/
def renumberFrom : Nat → List ReplacementRecord → List ReplacementRecord
  | _, [] => []
  | k, e :: rest =>
    { e with replacement := generate_replacement e.type (k + 1) } ::
      renumberFrom (k + 1) rest

/-- Number of ledger entries of a given category. -/
def countType (ty : String) (l : List ReplacementRecord) : Nat :=
  (l.filter (fun e => e.type == ty)).length

/-- Checker for per-run, per-category numbering (claim C1 as stated): walking
the ledger left to right, each entry must carry the placeholder built from a
counter of its own category only, starting at 1. -/
def perCategoryNumberedFrom : List ReplacementRecord → List ReplacementRecord → Bool
  | _, [] => true
  | seen, e :: rest =>
    (e.replacement == generate_replacement e.type (countType e.type seen + 1)) &&
      perCategoryNumberedFrom (seen ++ [e]) rest

/-- Whole-ledger per-category numbering check. -/
def perCategoryNumbered (l : List ReplacementRecord) : Bool :=
  perCategoryNumberedFrom [] l

/-- Position of a category name in the fixed catalog order (7 if absent). -/
def category_priority (ty : String) : Nat := (patterns.map (fun c => c.1)).indexOf ty

/-- Checker for the ordering claimed by C3: adjacent ledger entries are either
in the same category with non-decreasing start offsets, or in categories of
strictly increasing catalog priority.  Any ledger that is grouped by category
in catalog order with left-to-right matches inside each category passes this
check, so a ledger failing it refutes that claim. -/
def claimC3Order : List ReplacementRecord → Bool
  | [] => true
  | [_] => true
  | a :: b :: rest =>
    (category_priority a.type < category_priority b.type ||
      (a.type == b.type && a.position.1 ≤ b.position.1)) &&
      claimC3Order (b :: rest)

/-! ### Helper lemmas -/

theorem foldl_preserve {α β : Type} (f : β → α → β) (P : β → Prop)
    (h : ∀ b a, P b → P (f b a)) : ∀ (l : List α) (b : β), P b → P (l.foldl f b) := by
  intro l
  induction l with
  | nil => intro b hb; exact hb
  | cons a t ih => intro b hb; exact ih (f b a) (h b a hb)

theorem renumberFrom_append (l : List ReplacementRecord) :
    ∀ (k : Nat) (e : ReplacementRecord),
      renumberFrom k (l ++ [e]) =
        renumberFrom k l ++
          [{ e with replacement := generate_replacement e.type (k + l.length + 1) }] := by
  induction l with
  | nil => intro k e; simp [renumberFrom]
  | cons a t ih =>
    intro k e
    have h1 : k + 1 + t.length + 1 = k + (a :: t).length + 1 := by
      simp [List.length_cons]; omega
    show renumberFrom k (a :: (t ++ [e])) = _
    rw [renumberFrom, ih, h1, renumberFrom]
    simp

/-- A ledger is well numbered when re-numbering it globally from 1 changes
nothing. -/
def wellNumbered (l : List ReplacementRecord) : Prop := renumberFrom 0 l = l

theorem wellNumbered_append (l : List ReplacementRecord) (orig : Text)
    (ty : String) (pos : Nat × Nat) (h : wellNumbered l) :
    wellNumbered (l ++ [⟨orig, generate_replacement ty (l.length + 1), ty, pos⟩]) := by
  unfold wellNumbered at h ⊢
  rw [renumberFrom_append, h]
  simp

theorem processMatch_wellNumbered (ty : String) (st : RState) (m : RMatch)
    (h : wellNumbered st.2) : wellNumbered (processMatch ty st m).2 :=
  wellNumbered_append st.2 m.group ty m.span h

theorem processRule_wellNumbered (engine : Engine) (ty : String) (st : RState)
    (p : Regex) (h : wellNumbered st.2) : wellNumbered (processRule engine ty st p).2 :=
  foldl_preserve (processMatch ty) (fun s => wellNumbered s.2)
    (fun b a hb => processMatch_wellNumbered ty b a hb) (engine p st.1) st h

theorem processCategory_wellNumbered (engine : Engine) (st : RState)
    (c : String × List Regex) (h : wellNumbered st.2) :
    wellNumbered (processCategory engine st c).2 :=
  foldl_preserve (processRule engine c.1) (fun s => wellNumbered s.2)
    (fun b a hb => processRule_wellNumbered engine c.1 b a hb) c.2 st h

/-- Every ledger produced from any engine and input is globally numbered. -/
theorem anonymize_wellNumbered (engine : Engine) (text : Text) :
    wellNumbered (anonymize_locally engine text).replacements :=
  foldl_preserve (processCategory engine) (fun s => wellNumbered s.2)
    (fun b a hb => processCategory_wellNumbered engine b a hb) patterns (text, []) rfl

theorem foldl_processMatch_types (ty : String) :
    ∀ (ms : List RMatch) (st : RState),
      ∃ l, (ms.foldl (processMatch ty) st).2 = st.2 ++ l ∧ ∀ e ∈ l, e.type = ty := by
  intro ms
  induction ms with
  | nil => intro st; exact ⟨[], by simp, by simp⟩
  | cons m t ih =>
    intro st
    obtain ⟨l, hl, hty⟩ := ih (processMatch ty st m)
    refine ⟨⟨m.group, generate_replacement ty (st.2.length + 1), ty, m.span⟩ :: l, ?_, ?_⟩
    · rw [List.foldl_cons, hl]
      show (processMatch ty st m).2 ++ l = _
      simp [processMatch]
    · intro e he
      rcases List.mem_cons.mp he with h | h
      · rw [h]
      · exact hty e h

theorem processRule_types (engine : Engine) (ty : String) (st : RState) (p : Regex) :
    ∃ l, (processRule engine ty st p).2 = st.2 ++ l ∧ ∀ e ∈ l, e.type = ty :=
  foldl_processMatch_types ty (engine p st.1) st

theorem processCategory_types (engine : Engine) (c : String × List Regex) :
    ∀ (ps : List Regex) (st : RState),
      ∃ l, (ps.foldl (processRule engine c.1) st).2 = st.2 ++ l ∧ ∀ e ∈ l, e.type = c.1 := by
  intro ps
  induction ps with
  | nil => intro st; exact ⟨[], by simp, by simp⟩
  | cons p t ih =>
    intro st
    obtain ⟨l1, hl1, hty1⟩ := processRule_types engine c.1 st p
    obtain ⟨l2, hl2, hty2⟩ := ih (processRule engine c.1 st p)
    refine ⟨l1 ++ l2, ?_, ?_⟩
    · rw [List.foldl_cons, hl2, hl1, List.append_assoc]
    · intro e he
      rcases List.mem_append.mp he with h | h
      · exact hty1 e h
      · exact hty2 e h

/-- The ledger ordering relation of claim C3 (category priority order). -/
def prOrd (a b : ReplacementRecord) : Prop :=
  category_priority a.type ≤ category_priority b.type

theorem foldl_categories_pairwise (engine : Engine) :
    ∀ (L : List (String × List Regex)) (st : RState),
      List.Pairwise prOrd st.2 →
      (∀ e ∈ st.2, ∀ c ∈ L, category_priority e.type ≤ category_priority c.1) →
      List.Pairwise (fun a b : String × List Regex =>
        category_priority a.1 ≤ category_priority b.1) L →
      List.Pairwise prOrd ((L.foldl (processCategory engine) st).2) := by
  intro L
  induction L with
  | nil => intro st h1 _ _; exact h1
  | cons c t ih =>
    intro st h1 h2 h3
    obtain ⟨l, hl, hty⟩ := processCategory_types engine c c.2 st
    rw [List.foldl_cons]
    refine ih (processCategory engine st c) ?_ ?_ (List.Pairwise.sublist (by simp) h3)
    · show List.Pairwise prOrd (processCategory engine st c).2
      rw [show processCategory engine st c = c.2.foldl (processRule engine c.1) st from rfl, hl]
      rw [List.pairwise_append]
      refine ⟨h1, ?_, ?_⟩
      · exact List.pairwise_of_forall_mem_list fun a ha b hb => by
          unfold prOrd; rw [hty a ha, hty b hb]
      · intro a ha b hb
        unfold prOrd
        rw [hty b hb]
        exact h2 a ha c (by simp)
    · show ∀ e ∈ (processCategory engine st c).2, _
      rw [show processCategory engine st c = c.2.foldl (processRule engine c.1) st from rfl, hl]
      intro e he c' hc'
      rcases List.mem_append.mp he with h | h
      · exact h2 e h c' (List.mem_cons_of_mem c hc')
      · rw [hty e h]
        rcases List.pairwise_cons.mp h3 with ⟨hhead, _⟩
        exact hhead c' hc'

theorem foldl_processMatch_len (ty : String) :
    ∀ (ms : List RMatch) (st : RState),
      ((ms.foldl (processMatch ty) st).2).length = st.2.length + ms.length := by
  intro ms
  induction ms with
  | nil => intro st; simp
  | cons m t ih =>
    intro st
    rw [List.foldl_cons, ih]
    show (processMatch ty st m).2.length + t.length = _
    simp [processMatch]
    omega

theorem processRule_len (engine : Engine) (ty : String) (st : RState) (p : Regex) :
    ((processRule engine ty st p).2).length = st.2.length + (engine p st.1).length :=
  foldl_processMatch_len ty (engine p st.1) st

theorem processRule_of_empty (engine : Engine) (ty : String) (st : RState) (p : Regex)
    (h : engine p st.1 = []) : processRule engine ty st p = st := by
  unfold processRule
  rw [h]
  rfl

theorem processCategory_len_ge (engine : Engine) (ty : String) :
    ∀ (ps : List Regex) (st : RState),
      st.2.length ≤ ((ps.foldl (processRule engine ty) st).2).length := by
  intro ps
  induction ps with
  | nil => intro st; exact le_refl _
  | cons p t ih =>
    intro st
    rw [List.foldl_cons]
    exact le_trans (by rw [processRule_len]; omega) (ih (processRule engine ty st p))

theorem foldl_categories_len_ge (engine : Engine) :
    ∀ (L : List (String × List Regex)) (st : RState),
      st.2.length ≤ ((L.foldl (processCategory engine) st).2).length := by
  intro L
  induction L with
  | nil => intro st; exact le_refl _
  | cons c t ih =>
    intro st
    rw [List.foldl_cons]
    exact le_trans (processCategory_len_ge engine c.1 c.2 st) (ih (processCategory engine st c))

theorem processCategory_of_empty (engine : Engine) (ty : String) :
    ∀ (ps : List Regex) (st : RState),
      (∀ p ∈ ps, engine p st.1 = []) → ps.foldl (processRule engine ty) st = st := by
  intro ps
  induction ps with
  | nil => intro st _; rfl
  | cons p t ih =>
    intro st h
    rw [List.foldl_cons, processRule_of_empty engine ty st p (h p (by simp))]
    exact ih st fun q hq => h q (List.mem_cons_of_mem p hq)

theorem foldl_categories_of_empty (engine : Engine) :
    ∀ (L : List (String × List Regex)) (st : RState),
      (∀ c ∈ L, ∀ p ∈ c.2, engine p st.1 = []) →
        L.foldl (processCategory engine) st = st := by
  intro L
  induction L with
  | nil => intro st _; rfl
  | cons c t ih =>
    intro st h
    rw [List.foldl_cons,
      show processCategory engine st c = c.2.foldl (processRule engine c.1) st from rfl,
      processCategory_of_empty engine c.1 c.2 st (h c (by simp))]
    exact ih st fun c' hc' => h c' (List.mem_cons_of_mem c hc')

theorem processCategory_nil (engine : Engine) (ty : String) :
    ∀ (ps : List Regex) (st : RState),
      ((ps.foldl (processRule engine ty) st).2 = []) →
        st.2 = [] ∧ (∀ p ∈ ps, engine p st.1 = []) ∧
          ps.foldl (processRule engine ty) st = st := by
  intro ps
  induction ps with
  | nil => intro st h; exact ⟨h, by simp, rfl⟩
  | cons p t ih =>
    intro st h
    rw [List.foldl_cons] at h
    obtain ⟨hst', hall, hfix⟩ := ih (processRule engine ty st p) h
    have hlen : (processRule engine ty st p).2.length = 0 := by rw [hst']; rfl
    rw [processRule_len] at hlen
    have hst : st.2 = [] := List.length_eq_zero.mp (by omega)
    have hemp : engine p st.1 = [] := List.length_eq_zero.mp (by omega)
    have hid : processRule engine ty st p = st := processRule_of_empty engine ty st p hemp
    rw [hid] at hall hfix
    refine ⟨hst, ?_, by rw [List.foldl_cons, hid, hfix]⟩
    intro q hq
    rcases List.mem_cons.mp hq with hq | hq
    · rw [hq]; exact hemp
    · exact hall q hq

theorem foldl_categories_nil (engine : Engine) :
    ∀ (L : List (String × List Regex)) (st : RState),
      ((L.foldl (processCategory engine) st).2 = []) →
        st.2 = [] ∧ (∀ c ∈ L, ∀ p ∈ c.2, engine p st.1 = []) := by
  intro L
  induction L with
  | nil => intro st h; exact ⟨h, by simp⟩
  | cons c t ih =>
    intro st h
    rw [List.foldl_cons] at h
    obtain ⟨hst', hall⟩ := ih (processCategory engine st c) h
    obtain ⟨hst, hallc, hfix⟩ := processCategory_nil engine c.1 c.2 st hst'
    rw [show processCategory engine st c = c.2.foldl (processRule engine c.1) st from rfl,
      hfix] at hall
    refine ⟨hst, ?_⟩
    intro c' hc'
    rcases List.mem_cons.mp hc' with hc' | hc'
    · rw [hc']; exact hallc
    · exact hall c' hc'

theorem issues_foldl_join (engine : Engine) (t : Text) :
    ∀ (ps : List Regex) (acc : List Text),
      ps.foldl (issuesStep engine t) acc =
        acc ++ (ps.map (fun p => findall engine p t)).flatten := by
  intro ps
  induction ps with
  | nil => intro acc; simp
  | cons p pt ih =>
    intro acc
    rw [List.foldl_cons, ih]
    by_cases h : (findall engine p t).isEmpty
    · have h0 : findall engine p t = [] := by
        rwa [List.isEmpty_iff] at h
      simp [issuesStep, h, h0]
    · simp [issuesStep, h, List.append_assoc]

theorem gdpr_foldl_closed (engine : Engine) (t : Text) :
    ∀ (ps : List (String × Regex)) (acc : List GdprIssue) (sc : Int),
      ps.foldl (gdprStep engine t) (acc, sc) =
        (acc ++ ps.filterMap (fun np =>
            let ms := findall engine np.2 t
            if ms.isEmpty then none else some ⟨np.1, ms, severity_for np.1⟩),
         sc - 15 * (ps.map (fun np => ((findall engine np.2 t).length : Int))).sum) := by
  intro ps
  induction ps with
  | nil => intro acc sc; simp
  | cons np pt ih =>
    intro acc sc
    rw [List.foldl_cons]
    by_cases h : (findall engine np.2 t).isEmpty
    · have h0 : findall engine np.2 t = [] := by rwa [List.isEmpty_iff] at h
      have hstep : gdprStep engine t (acc, sc) np = (acc, sc) := by
        simp [gdprStep, h]
      rw [hstep, ih]
      simp [h, h0]
    · have hstep : gdprStep engine t (acc, sc) np =
          (acc ++ [⟨np.1, findall engine np.2 t, severity_for np.1⟩],
           sc - ((findall engine np.2 t).length : Int) * 15) := by
        simp [gdprStep, h]
      rw [hstep, ih]
      have h0 : ¬(findall engine np.2 t = []) := by
        simpa [List.isEmpty_iff] using h
      simp [h0, List.append_assoc, Prod.mk.injEq]
      ring

/-! ### Claim theorems -/

set_option maxRecDepth 100000

/-- C1 counterexample: on the input "a@b.de 1.2.2034" the redactor's ledger
is a names entry ("de", from the case-insensitive single-word rule, numbered
1) followed by the run's first dates entry — which receives placeholder
"[DATUM_2]", not "[DATUM_1]": the sequence number continues across
categories, so per-run, per-category numbering fails. -/
theorem C1_per_category_numbering_fails :
    perCategoryNumbered
        (anonymize_locally finditerImpl (strT "a@b.de 1.2.2034")).replacements = false ∧
    (anonymize_locally finditerImpl (strT "a@b.de 1.2.2034")).replacements.map
        (fun e => (e.type, e.original, e.replacement)) =
      [("names", strT "de", strT "[NAME_1]"),
       ("dates", strT "1.2.2034", strT "[DATUM_2]")] := by
  constructor
  · decide
  · decide

/-- C1 amended: placeholders are numbered by a single per-run counter shared
by all categories, starting at 1: the n-th match of the whole run (whatever
its category) receives placeholder number n, built from its own category's
template.  Equivalently, re-numbering the ledger globally from 1 is the
identity, for every engine and every input. -/
theorem C1_global_numbering (engine : Engine) (text : Text) :
    renumberFrom 0 (anonymize_locally engine text).replacements =
      (anonymize_locally engine text).replacements :=
  anonymize_wellNumbered engine text

/-- C1 witness: the global-numbering theorem instantiated at the concrete
engine and the input "a@b.de 1.2.2034". -/
theorem C1_global_numbering_witness :
    renumberFrom 0 (anonymize_locally finditerImpl (strT "a@b.de 1.2.2034")).replacements =
      (anonymize_locally finditerImpl (strT "a@b.de 1.2.2034")).replacements :=
  C1_global_numbering finditerImpl (strT "a@b.de 1.2.2034")

/-- C2 counterexample: on the spec's concrete scenario input the ledger does
not contain exactly one entry (the case-insensitive name rules fire on
ordinary lowercase word pairs as well). -/
theorem C2_single_date_entry_fails :
    ¬((anonymize_locally finditerImpl
        (strT "Konsultation vom 15.12.2023: Patient klagt über Kopfschmerzen.")).replacements.length
          = 1) := by
  decide

/-- C2 amended: on input "Konsultation vom 15.12.2023: Patient klagt über
Kopfschmerzen." the ledger has four entries: three names-category matches
("Konsultation vom", "Patient klagt", "über Kopfschmerzen" — the name rules
are case-insensitive, so ordinary word pairs match) and then the date
"15.12.2023", whose placeholder is "[DATUM_4]" because numbering is global;
the anonymized text is "[NAME_1] [DATUM_4]: [NAME_2] [NAME_3].". -/
theorem C2_konsultation_run :
    (anonymize_locally finditerImpl
        (strT "Konsultation vom 15.12.2023: Patient klagt über Kopfschmerzen.")).replacements.map
        (fun e => (e.type, e.original, e.replacement)) =
      [("names", strT "Konsultation vom", strT "[NAME_1]"),
       ("names", strT "Patient klagt", strT "[NAME_2]"),
       ("names", strT "über Kopfschmerzen", strT "[NAME_3]"),
       ("dates", strT "15.12.2023", strT "[DATUM_4]")] ∧
    (anonymize_locally finditerImpl
        (strT "Konsultation vom 15.12.2023: Patient klagt über Kopfschmerzen.")).anonymized_text =
      strT "[NAME_1] [DATUM_4]: [NAME_2] [NAME_3]." := by
  constructor
  · decide
  · decide

/-- C3 counterexample: on "123-1234567 030-12345678" both ledger entries are
phone-category, but they are recorded with start offsets 12 and then 0: the
first phone rule (leading zero) finds the right-hand number before the second
phone rule (dash-grouped) finds the left-hand one, so within-category
left-to-right order fails. -/
theorem C3_within_category_order_fails :
    (anonymize_locally finditerImpl (strT "123-1234567 030-12345678")).replacements.map
        (fun e => (e.type, e.position)) =
      [("phones", (12, 24)), ("phones", (0, 11))] ∧
    claimC3Order
        (anonymize_locally finditerImpl (strT "123-1234567 030-12345678")).replacements
      = false := by
  constructor
  · decide
  · decide

/-- C3 amended: ledger entries do appear grouped by category in the fixed
catalog priority order (names, addresses, phones, emails, ids, dates,
insurance) — for every engine and input, the category priorities along the
ledger are non-decreasing.  Within one category, entries are grouped by rule
in rule order and follow each rule's own match order; they need not be
left-to-right by position across rules of the same category. -/
theorem C3_ledger_grouped_by_category (engine : Engine) (text : Text) :
    List.Pairwise
      (fun a b => category_priority a.type ≤ category_priority b.type)
      (anonymize_locally engine text).replacements := by
  have h := foldl_categories_pairwise engine patterns (text, [])
    (by simp) (by simp) (by decide)
  exact h

/-- C3 witness: the category-grouping theorem instantiated at the concrete
engine and the input "123-1234567 030-12345678". -/
theorem C3_ledger_grouped_witness :
    List.Pairwise
      (fun a b => category_priority a.type ≤ category_priority b.type)
      (anonymize_locally finditerImpl (strT "123-1234567 030-12345678")).replacements :=
  C3_ledger_grouped_by_category finditerImpl (strT "123-1234567 030-12345678")

/-- C4: the redactor is total (the embedding returns a plain
`AnonymizationResult`, never a failure value), and for every engine and every
input text the ledger is empty iff no rule of the catalog matches anywhere in
the input text; an empty ledger still comes with a normal result record. -/
theorem C4_empty_ledger_iff (engine : Engine) (text : Text) :
    (anonymize_locally engine text).replacements = [] ↔
      ∀ c ∈ patterns, ∀ p ∈ c.2, engine p text = [] := by
  constructor
  · intro h
    exact (foldl_categories_nil engine patterns (text, []) h).2
  · intro h
    show (patterns.foldl (processCategory engine) (text, [])).2 = []
    rw [foldl_categories_of_empty engine patterns (text, []) h]

/-- C4 witness: on the concrete input "a + b" no catalog rule matches and the
ledger is empty. -/
theorem C4_empty_ledger_iff_witness :
    (anonymize_locally finditerImpl (strT "a + b")).replacements = [] :=
  (C4_empty_ledger_iff finditerImpl (strT "a + b")).mpr (by decide)

/-- C5: the reduced validator inspects only the candidate text (the original
argument is ignored), matches exactly the three high-precision rules (names,
postal-code addresses, emails) against it, flattens all matched literals into
one issues list, reports `is_valid` iff that list is empty, and scores
`max(0, 100 - 10 * len(issues))` — for every engine and every pair of
inputs. -/
theorem C5_reduced_validator_spec (engine : Engine)
    (original original2 anonymized : Text) :
    validate_anonymization engine original anonymized =
        validate_anonymization engine original2 anonymized ∧
    (validate_anonymization engine original anonymized).potential_issues =
        (suspicious_patterns.map (fun p => findall engine p anonymized)).flatten ∧
    ((validate_anonymization engine original anonymized).is_valid = true ↔
        (validate_anonymization engine original anonymized).potential_issues = []) ∧
    (validate_anonymization engine original anonymized).anonymization_score =
        max 0 (100 -
          10 * ((validate_anonymization engine original anonymized).potential_issues.length : Int)) := by
  refine ⟨rfl, ?_, ?_, ?_⟩
  · show suspicious_patterns.foldl (issuesStep engine anonymized) [] = _
    rw [issues_foldl_join]
    simp
  · show ((suspicious_patterns.foldl (issuesStep engine anonymized) []).length == 0) = true ↔
        suspicious_patterns.foldl (issuesStep engine anonymized) [] = []
    simp [List.length_eq_zero]
  · show max 0
        (100 - ((suspicious_patterns.foldl (issuesStep engine anonymized) []).length : Int) * 10) = _
    rw [Int.mul_comm]
    rfl

/-- C5 witness: the reduced-validator theorem instantiated at the concrete
engine, empty original arguments and the candidate "a@b.de". -/
theorem C5_reduced_validator_witness :
    (validate_anonymization finditerImpl [] (strT "a@b.de")).potential_issues =
      (suspicious_patterns.map (fun p => findall finditerImpl p (strT "a@b.de"))).flatten :=
  (C5_reduced_validator_spec finditerImpl [] [] (strT "a@b.de")).2.1

/-- C6: the full validator runs all seven catalog categories over the text,
emits one finding per matching category (category name, matched literals,
severity "high" for names, addresses and phone numbers, otherwise "medium"),
declares the text anonymized iff there is no finding, and scores
`max(0, 100 - 15 * total_matches)`; concretely, on
"Patient: Max Mustermann, Tel: 030-12345678, max@example.com" it produces
exactly the three findings name, phone, email with confidence score 55. -/
theorem C6_full_validator_spec (engine : Engine) (t : Text) :
    (gdpr_validate_anonymization engine t).issues =
        SENSITIVE_PATTERNS.filterMap (fun np =>
          let ms := findall engine np.2 t
          if ms.isEmpty then none else some ⟨np.1, ms, severity_for np.1⟩) ∧
    (gdpr_validate_anonymization engine t).confidence_score =
        max 0 (100 - 15 * (SENSITIVE_PATTERNS.map
          (fun np => ((findall engine np.2 t).length : Int))).sum) ∧
    ((gdpr_validate_anonymization engine t).is_anonymized = true ↔
        (gdpr_validate_anonymization engine t).issues = []) ∧
    gdpr_validate_anonymization finditerImpl
        (strT "Patient: Max Mustermann, Tel: 030-12345678, max@example.com") =
      { is_anonymized := false,
        confidence_score := 55,
        issues := [⟨"german_names", [strT "Max Mustermann"], "high"⟩,
                   ⟨"phone_numbers", [strT "030-12345678"], "high"⟩,
                   ⟨"email_addresses", [strT "max@example.com"], "medium"⟩] } := by
  refine ⟨?_, ?_, ?_, by decide⟩
  · show (SENSITIVE_PATTERNS.foldl (gdprStep engine t) ([], 100)).1 = _
    rw [gdpr_foldl_closed]
    simp
  · show max 0 (SENSITIVE_PATTERNS.foldl (gdprStep engine t) ([], 100)).2 = _
    rw [gdpr_foldl_closed]
  · show ((SENSITIVE_PATTERNS.foldl (gdprStep engine t) ([], 100)).1.length == 0) = true ↔
        (SENSITIVE_PATTERNS.foldl (gdprStep engine t) ([], 100)).1 = []
    simp [List.length_eq_zero]

/-- C6 witness: the full-validator theorem instantiated at the concrete
engine and the claim's concrete scenario text. -/
theorem C6_full_validator_witness :
    (gdpr_validate_anonymization finditerImpl
        (strT "Patient: Max Mustermann, Tel: 030-12345678, max@example.com")).confidence_score =
      max 0 (100 - 15 * (SENSITIVE_PATTERNS.map
        (fun np => ((findall finditerImpl np.2
          (strT "Patient: Max Mustermann, Tel: 030-12345678, max@example.com")).length : Int))).sum) :=
  (C6_full_validator_spec finditerImpl
    (strT "Patient: Max Mustermann, Tel: 030-12345678, max@example.com")).2.1

/-- C7 counterexample: for candidate A = "a@b.de a@b.de a@b.de" and candidate
B = "a@b.de x@y.de", the set of leaked literals found in B strictly contains
the set found in A (every literal of A occurs among B's, not conversely), yet
B's score (80) is strictly greater than A's (70): set-based superset
monotonicity of the reduced validator's score fails, because the score counts
matches with multiplicity. -/
theorem C7_superset_monotonicity_fails :
    ((validate_anonymization finditerImpl [] (strT "a@b.de a@b.de a@b.de")).potential_issues.all
        (fun x => (validate_anonymization finditerImpl [] (strT "a@b.de x@y.de")).potential_issues.contains x)
      = true) ∧
    ((validate_anonymization finditerImpl [] (strT "a@b.de x@y.de")).potential_issues.all
        (fun x => (validate_anonymization finditerImpl [] (strT "a@b.de a@b.de a@b.de")).potential_issues.contains x)
      = false) ∧
    (validate_anonymization finditerImpl [] (strT "a@b.de a@b.de a@b.de")).anonymization_score <
      (validate_anonymization finditerImpl [] (strT "a@b.de x@y.de")).anonymization_score := by
  refine ⟨by decide, by decide, by decide⟩

/-- C7 amended: the reduced validator's score is antitone in the number of
leaked matches counted with multiplicity: whenever it finds at least as many
matches in candidate B as in candidate A, B's score is at most A's (for every
engine and any original arguments). -/
theorem C7_score_antitone_in_match_count (engine : Engine)
    (o1 o2 a b : Text)
    (h : (validate_anonymization engine o1 a).potential_issues.length ≤
         (validate_anonymization engine o2 b).potential_issues.length) :
    (validate_anonymization engine o2 b).anonymization_score ≤
      (validate_anonymization engine o1 a).anonymization_score := by
  show max 0 (100 - ((validate_anonymization engine o2 b).potential_issues.length : Int) * 10) ≤
    max 0 (100 - ((validate_anonymization engine o1 a).potential_issues.length : Int) * 10)
  exact max_le_max (le_refl 0) (by omega)

/-- C7 witness: concretely, the validator finds one match in "a@b.de" and two
in "a@b.de x@y.de", so the latter's score is at most the former's. -/
theorem C7_score_antitone_witness :
    (validate_anonymization finditerImpl [] (strT "a@b.de x@y.de")).anonymization_score ≤
      (validate_anonymization finditerImpl [] (strT "a@b.de")).anonymization_score :=
  C7_score_antitone_in_match_count finditerImpl [] []
    (strT "a@b.de") (strT "a@b.de x@y.de") (by decide)

/-- C8: the retention-date helper adds the constant day count of the data
type to the creation date (dates modelled as integer day counts):
2555 for medical records, 2190 for audit logs, 1095 for AI interactions,
2555 for consent records, 3650 for anonymized data; any data type outside
the table falls back to 2555 days, and the function is total (no error
path). -/
theorem C8_retention_date_spec (d : Int) (t : String) :
    calculate_retention_date t d =
        d + (((RETENTION_PERIODS.lookup t).getD 2555 : Nat) : Int) ∧
    calculate_retention_date "medical_records" d = d + 2555 ∧
    calculate_retention_date "audit_logs" d = d + 2190 ∧
    calculate_retention_date "ai_interactions" d = d + 1095 ∧
    calculate_retention_date "consent_records" d = d + 2555 ∧
    calculate_retention_date "anonymized_data" d = d + 3650 ∧
    (t ∉ RETENTION_PERIODS.map (fun kv => kv.1) →
      calculate_retention_date t d = d + 2555) := by
  refine ⟨rfl, rfl, rfl, rfl, rfl, rfl, ?_⟩
  intro h
  simp only [RETENTION_PERIODS, List.map_cons, List.map_nil, List.mem_cons,
    List.mem_singleton, not_or] at h
  obtain ⟨h1, h2, h3, h4, h5, -⟩ := h
  have b1 : (t == "medical_records") = false := beq_eq_false_iff_ne.mpr h1
  have b2 : (t == "audit_logs") = false := beq_eq_false_iff_ne.mpr h2
  have b3 : (t == "ai_interactions") = false := beq_eq_false_iff_ne.mpr h3
  have b4 : (t == "consent_records") = false := beq_eq_false_iff_ne.mpr h4
  have b5 : (t == "anonymized_data") = false := beq_eq_false_iff_ne.mpr h5
  simp [calculate_retention_date, RETENTION_PERIODS, List.lookup,
    b1, b2, b3, b4, b5]

/-- C8 witness: for the unknown data type "session_data" and creation day 7
the helper returns 7 + 2555. -/
theorem C8_retention_date_witness :
    calculate_retention_date "session_data" 7 = 7 + 2555 :=
  (C8_retention_date_spec 7 "session_data").2.2.2.2.2.2 (by decide)

/-- C9: the rights-request helper is total; any request type outside the
seven-element enumeration produces a structured failure record (valid false,
an error message naming the type, and the list of valid types), and the
"erasure" type produces a valid record with legal basis
"Article 17 - Right to erasure". -/
theorem C9_rights_request_spec (t pid : String) :
    (t ∉ valid_requests.map (fun kv => kv.1) →
      validate_data_subject_rights t pid =
        { valid := false,
          error := some ("Invalid request type: " ++ t),
          valid_types := some ["access", "rectification", "erasure",
            "restrict_processing", "data_portability", "object",
            "withdraw_consent"],
          request_type := none, legal_basis := none, patient_id := none }) ∧
    (validate_data_subject_rights "erasure" pid).valid = true ∧
    (validate_data_subject_rights "erasure" pid).legal_basis =
      some "Article 17 - Right to erasure" := by
  refine ⟨?_, rfl, rfl⟩
  intro h
  simp only [valid_requests, List.map_cons, List.map_nil, List.mem_cons,
    List.mem_singleton, not_or] at h
  obtain ⟨h1, h2, h3, h4, h5, h6, h7, -⟩ := h
  have b1 : (t == "access") = false := beq_eq_false_iff_ne.mpr h1
  have b2 : (t == "rectification") = false := beq_eq_false_iff_ne.mpr h2
  have b3 : (t == "erasure") = false := beq_eq_false_iff_ne.mpr h3
  have b4 : (t == "restrict_processing") = false := beq_eq_false_iff_ne.mpr h4
  have b5 : (t == "data_portability") = false := beq_eq_false_iff_ne.mpr h5
  have b6 : (t == "object") = false := beq_eq_false_iff_ne.mpr h6
  have b7 : (t == "withdraw_consent") = false := beq_eq_false_iff_ne.mpr h7
  have hl : valid_requests.lookup t = none := by
    simp [valid_requests, List.lookup, b1, b2, b3, b4, b5, b6, b7]
  unfold validate_data_subject_rights
  rw [hl]
  rfl

/-- C9 witness: the bogus request type is rejected structurally and the
erasure type yields the Article 17 legal basis. -/
theorem C9_rights_request_witness :
    validate_data_subject_rights "bogus" "P-1" =
      { valid := false,
        error := some ("Invalid request type: " ++ "bogus"),
        valid_types := some ["access", "rectification", "erasure",
          "restrict_processing", "data_portability", "object",
          "withdraw_consent"],
        request_type := none, legal_basis := none, patient_id := none } :=
  (C9_rights_request_spec "bogus" "P-1").1 (by decide)

/-- C10: for every engine and every input text, the record returned by the
local redactor reports `gdpr_compliant = True` and
`anonymization_method = "local_regex_processing"` unconditionally, echoes the
input unchanged as `original_text`, and sets `replacement_count` to the
length of the replacements ledger. -/
theorem C10_result_metadata (engine : Engine) (text : Text) :
    (anonymize_locally engine text).gdpr_compliant = true ∧
    (anonymize_locally engine text).anonymization_method = "local_regex_processing" ∧
    (anonymize_locally engine text).original_text = text ∧
    (anonymize_locally engine text).replacement_count =
      (anonymize_locally engine text).replacements.length :=
  ⟨rfl, rfl, rfl, rfl⟩

/-- C10 witness: the metadata theorem instantiated at the concrete engine and
the input "Patient Max". -/
theorem C10_result_metadata_witness :
    (anonymize_locally finditerImpl (strT "Patient Max")).gdpr_compliant = true ∧
    (anonymize_locally finditerImpl (strT "Patient Max")).anonymization_method =
      "local_regex_processing" ∧
    (anonymize_locally finditerImpl (strT "Patient Max")).original_text = strT "Patient Max" ∧
    (anonymize_locally finditerImpl (strT "Patient Max")).replacement_count =
      (anonymize_locally finditerImpl (strT "Patient Max")).replacements.length :=
  C10_result_metadata finditerImpl (strT "Patient Max")

end MediLocal
